import Mathlib

/-!
Verification of `src/streamlit_app.py` (gemini-fullstack-langgraph-quickstart
Streamlit front-end).  The file shallow-embeds the submission handler
(lines 74-129), the sidebar configuration widgets (lines 22-23) and the
history rendering loop (lines 36-70) as pure Lean functions, and proves the
specification claims about them.
-/

namespace StreamlitApp

/-- A model of the Python values that can appear in the lists stored in a
history entry (`sources`, `queries`, `reflections`): strings, dicts,
lists, numbers, booleans, `None`, and arbitrary objects carrying a set of
attributes (dot-accessible, no methods). -/
inductive PyVal where
  | str (s : String)
  | int (n : Int)
  | bool (b : Bool)
  | pyNone
  | list (xs : List PyVal)
  | dict (kvs : List (String × PyVal))
  | obj (attrs : List (String × PyVal))
deriving Repr

/-- Dictionary key lookup, `d[k]`-style: first binding wins. -/
def lookupKey (kvs : List (String × PyVal)) (k : String) : Option PyVal :=
  match kvs with
  | [] => Option.none
  | (k₀, v₀) :: rest => if k₀ = k then some v₀ else lookupKey rest k

mutual

/-- Python `str(v)`, modelled structurally (object identity addresses are
replaced by a constant tag). -/
def pyStr : PyVal → String
  | .str s => s
  | .int n => toString n
  | .bool true => "True"
  | .bool false => "False"
  | .pyNone => "None"
  | .list xs => "[" ++ pyStrList xs ++ "]"
  | .dict kvs => "\x7b" ++ pyStrKVs kvs ++ "\x7d"
  | .obj _ => "<object>"

/-- Comma-separated rendering of list elements. -/
def pyStrList : List PyVal → String
  | [] => ""
  | [x] => pyStr x
  | x :: rest => pyStr x ++ ", " ++ pyStrList rest

/-- Comma-separated rendering of dict items. -/
def pyStrKVs : List (String × PyVal) → String
  | [] => ""
  | [(k, v)] => k ++ ": " ++ pyStr v
  | (k, v) :: rest => k ++ ": " ++ pyStr v ++ ", " ++ pyStrKVs rest

end

/-- Python truthiness of a value (`if v:`). -/
def pyTruthy : PyVal → Bool
  | .str s => s ≠ ""
  | .int n => n ≠ 0
  | .bool b => b
  | .pyNone => false
  | .list xs => !xs.isEmpty
  | .dict kvs => !kvs.isEmpty
  | .obj _ => true

/-- The Python exceptions the handler can observe. -/
inductive PyExc where
  | importError
  | keyError (k : String)
  | indexError
  | attributeError (s : String)
  | typeError (s : String)
  | graphExc (msg : String)
deriving Repr, DecidableEq

/-- `str(e)` for an exception, as interpolated into the error banner. -/
def pyExcStr : PyExc → String
  | .importError => "ImportError"
  | .keyError k => k
  | .indexError => "list index out of range"
  | .attributeError s => s
  | .typeError s => s
  | .graphExc msg => msg

/-- `getattr(v, name)`-style attribute access: only objects carry
attributes in this model; everything else raises `AttributeError`. -/
def pyGetAttr (v : PyVal) (name : String) : Option PyVal :=
  match v with
  | .obj attrs => lookupKey attrs name
  | _ => Option.none

/-- Python `v.get(k, default)`: defined on dicts; on any other value the
attribute access `.get` itself raises `AttributeError` (strings, lists and
plain objects have no `get` method). -/
def pyDictGet (v : PyVal) (k : String) (default : PyVal) :
    Except PyExc PyVal :=
  match v with
  | .dict kvs => .ok ((lookupKey kvs k).getD default)
  | _ => .error (.attributeError "object has no attribute get")

/-- A value usable as an element of an iterable handed to `", ".join`. -/
def isStrVal : PyVal → Bool
  | .str _ => true
  | _ => false

/-- Python `", ".join(v)`: joins an iterable of strings; a string joins its
characters; anything else (or a list holding a non-string) raises
`TypeError`. -/
def pyJoin (sep : String) (v : PyVal) : Except PyExc String :=
  match v with
  | .str s => .ok (String.intercalate sep (s.data.map (fun c => String.mk [c])))
  | .list xs =>
    if xs.all isStrVal then
      .ok (String.intercalate sep (xs.map pyStr))
    else
      .error (.typeError "sequence item: expected str instance")
  | _ => .error (.typeError "can only join an iterable")

/-- One stored conversation turn, as appended at lines 109-115. -/
structure Entry where
  question : String
  answer : String
  sources : List PyVal
  queries : List PyVal
  reflections : List PyVal
deriving Repr

/-- Rendering of one element of `entry["sources"]` (lines 44-49). -/
def renderSourceItem (v : PyVal) : String :=
  match v with
  | .dict kvs =>
    match lookupKey kvs "url" with
    | some url =>
      "- [" ++ pyStr ((lookupKey kvs "title").getD url) ++ "](" ++ pyStr url ++ ")"
    | Option.none => "- " ++ pyStr v
  | .str s => "- " ++ s
  | _ => "- " ++ pyStr v

/-- Rendering of one element of `entry["queries"]` (lines 53-61): dicts with
a `query` key, strings, objects with a `query` attribute, and a `str()`
fallback when the attribute access raises `AttributeError`. -/
def renderQueryItem (v : PyVal) : String :=
  match v with
  | .dict kvs =>
    match lookupKey kvs "query" with
    | some q =>
      "- " ++ pyStr q ++ " (Rationale: " ++
        pyStr ((lookupKey kvs "rationale").getD (.str "N/A")) ++ ")"
    | Option.none =>
      match pyGetAttr v "query" with
      | some q =>
        "- " ++ pyStr q ++ " (Rationale: " ++
          pyStr ((pyGetAttr v "rationale").getD (.str "N/A")) ++ ")"
      | Option.none => "- " ++ pyStr v
  | .str s => "- " ++ s
  | _ =>
    match pyGetAttr v "query" with
    | some q =>
      "- " ++ pyStr q ++ " (Rationale: " ++
        pyStr ((pyGetAttr v "rationale").getD (.str "N/A")) ++ ")"
    | Option.none => "- " ++ pyStr v

/-- Rendering of one element of `entry["reflections"]` (lines 64-69).  The
code calls `note.get(...)` unconditionally, so a non-dict note raises. -/
def renderReflectionNote (idx : Nat) (note : PyVal) :
    Except PyExc (List String) := do
  let suff ← pyDictGet note "is_sufficient" (.str "N/A")
  let gap ← pyDictGet note "knowledge_gap" (.str "N/A")
  let head := ["  *Reflection " ++ toString (idx + 1) ++ ":*",
               "    - Sufficient: " ++ pyStr suff,
               "    - Knowledge Gap: " ++ pyStr gap]
  match note with
  | .dict kvs =>
    match lookupKey kvs "follow_up_queries" with
    | some fq =>
      if pyTruthy fq then do
        let joined ← pyJoin ", " fq
        pure (head ++ ["    - Follow-up Queries: " ++ joined])
      else
        pure head
    | Option.none => pure head
  | _ => pure head

/-- Renders the reflections list with running indices (the `enumerate` at
line 64). -/
def renderReflections (idx : Nat) (notes : List PyVal) :
    Except PyExc (List String) :=
  match notes with
  | [] => .ok []
  | n :: rest => do
    let first ← renderReflectionNote idx n
    let more ← renderReflections (idx + 1) rest
    pure (first ++ more)

/-- Rendering of one history entry (lines 37-70): the user question, the
answer, then the sources, queries and reflections sections, each shown only
when its list is truthy (non-empty). -/
def renderEntry (e : Entry) : Except PyExc (List String) := do
  let base := [e.question, "**Answer:**\n" ++ e.answer]
  let srcLines :=
    if !e.sources.isEmpty then
      "**Sources:**" :: e.sources.map renderSourceItem
    else []
  let qLines :=
    if !e.queries.isEmpty then
      "**Generated Queries:**" :: e.queries.map renderQueryItem
    else []
  let rLines ←
    if !e.reflections.isEmpty then do
      let body ← renderReflections 0 e.reflections
      pure ("**Reflection Notes:**" :: body)
    else
      pure []
  pure (base ++ srcLines ++ qLines ++ rLines ++ ["<divider>"])

/-- The history display loop (line 36): entries rendered in list order. -/
def renderHistory (h : List Entry) : List (Except PyExc (List String)) :=
  h.map renderEntry

/-- A langchain message: `HumanMessage` or `AIMessage`, each wrapping a
string content. -/
inductive Msg where
  | human (content : String)
  | ai (content : String)
deriving Repr, DecidableEq

/-- `.content` of a message. -/
def Msg.content : Msg → String
  | .human c => c
  | .ai c => c

/-- The dict passed to `graph.invoke` (line 93): a single `messages` key. -/
structure InvocationInput where
  messages : List Msg
deriving Repr, DecidableEq

/-- The `configurable` payload built at lines 94-99. -/
structure Config where
  number_of_initial_queries : Int
  max_research_loops : Int
deriving Repr, DecidableEq

/-- The result dict returned by `graph.invoke`.  Each key may be absent
(`Option.none`); `result["messages"]` raises `KeyError` when absent, the
other three are read with `.get(..., [])`. -/
structure GraphResult where
  messages : Option (List Msg)
  sources_gathered : Option (List PyVal)
  generated_queries : Option (List PyVal)
  reflection_notes : Option (List PyVal)

/-- The external world the handler interacts with: whether
`backend.src.agent.graph` imports, and what `graph.invoke` does.  The graph
itself is outside this repository and stays opaque. -/
structure External where
  importOk : Bool
  invoke : InvocationInput → Config → Except PyExc GraphResult

/-- The Streamlit session state touched by this app (lines 6-15), plus a
bag of any other session-state keys the framework may hold. -/
structure AppState where
  history : List Entry
  current_answer : Option String
  current_sources : Option (List PyVal)
  current_queries : Option (List PyVal)
  current_reflections : Option (List PyVal)
  otherKeys : List (String × PyVal)
deriving Repr

/-- One recorded call of `graph.invoke`, with the value of the
`GEMINI_API_KEY` environment variable at the moment of the call. -/
structure InvokeCall where
  input : InvocationInput
  config : Config
  env_gemini_api_key : Option String
deriving Repr, DecidableEq

/-- The observable outcome of one run of lines 74-129: the session state,
the `GEMINI_API_KEY` environment variable, the `st.error` banners shown,
the trace of `graph.invoke` calls, and whether `st.rerun()` was reached. -/
structure StepResult where
  session : AppState
  env_gemini_api_key : Option String
  errors : List String
  calls : List InvokeCall
  rerun : Bool

/-- Intermediate result of the `try` body (lines 81-124): the state and
trace so far, plus the exception that aborted it, if any. -/
structure BodyResult where
  session : AppState
  env_gemini_api_key : Option String
  calls : List InvokeCall
  exc : Option PyExc

/-- The `try` body, lines 81-124: import, set the environment variable,
build the invocation input and config, invoke the graph, extract the four
result fields into `current_*`, append the history entry, clear
`current_*`.  Each statement that can raise aborts the rest, keeping the
effects already performed. -/
def submissionBody (ext : External) (api_key user_question : String)
    (config : Config) (env : Option String) (s : AppState) : BodyResult :=
  if !ext.importOk then
    ⟨s, env, [], some .importError⟩
  else
    let env₁ := some api_key
    let invocation_input : InvocationInput := ⟨[Msg.human user_question]⟩
    let call : InvokeCall := ⟨invocation_input, config, env₁⟩
    match ext.invoke invocation_input config with
    | .error e => ⟨s, env₁, [call], some e⟩
    | .ok result =>
      match result.messages with
      | Option.none => ⟨s, env₁, [call], some (.keyError "messages")⟩
      | some msgs =>
        match msgs.getLast? with
        | Option.none => ⟨s, env₁, [call], some .indexError⟩
        | some last =>
          let ans := last.content
          let srcs := result.sources_gathered.getD []
          let qs := result.generated_queries.getD []
          let refl := result.reflection_notes.getD []
          let s₁ := { s with current_answer := some ans,
                             current_sources := some srcs,
                             current_queries := some qs,
                             current_reflections := some refl }
          let entry : Entry := ⟨user_question, ans, srcs, qs, refl⟩
          let s₂ := { s₁ with history := s₁.history ++ [entry] }
          let s₃ := { s₂ with current_answer := Option.none,
                              current_sources := Option.none,
                              current_queries := Option.none,
                              current_reflections := Option.none }
          ⟨s₃, env₁, [call], Option.none⟩

/-- The error banner of the `except ImportError` arm (line 127). -/
def importErrorBanner : String :=
  "Failed to import agent components. Please ensure the backend is correctly set up and all dependencies are installed."

/-- The error banner of the `except Exception` arm (line 129). -/
def genericErrorBanner (e : PyExc) : String :=
  "An error occurred while processing your request: " ++ pyExcStr e

/-- Lines 74-129: the whole submission handler.  `submit` is the form
submit button; empty fields short-circuit to validation errors; otherwise
the `try` body runs and its exception, if any, is dispatched to the
`except ImportError` / `except Exception` arms. -/
def processSubmission (submit : Bool) (api_key user_question : String)
    (config : Config) (ext : External) (env : Option String)
    (s : AppState) : StepResult :=
  if !submit then
    ⟨s, env, [], [], false⟩
  else if api_key = "" then
    ⟨s, env, ["Please enter your Gemini API Key."], [], false⟩
  else if user_question = "" then
    ⟨s, env, ["Please enter your question."], [], false⟩
  else
    let b := submissionBody ext api_key user_question config env s
    match b.exc with
    | Option.none => ⟨b.session, b.env_gemini_api_key, [], b.calls, true⟩
    | some .importError =>
      ⟨b.session, b.env_gemini_api_key, [importErrorBanner], b.calls, false⟩
    | some e =>
      ⟨b.session, b.env_gemini_api_key, [genericErrorBanner e], b.calls, false⟩

/-- A Streamlit `st.sidebar.number_input` with bounds: returns the default
when untouched, and clamps an entered value into `[min_value, max_value]`
(the widget refuses values outside the range). -/
def numberInput (min_value max_value default : Int)
    (entered : Option Int) : Int :=
  match entered with
  | Option.none => default
  | some v => max min_value (min max_value v)

/-- The sidebar configuration (lines 22-23) as a function of what the user
typed into the two number inputs. -/
def sidebarConfig (q_entered l_entered : Option Int) : Config :=
  ⟨numberInput 1 10 3 q_entered, numberInput 1 5 2 l_entered⟩

/-- Whether the Current Answer section (line 133) is shown: Python
truthiness of `st.session_state.current_answer`. -/
def currentAnswerShown (s : AppState) : Bool :=
  match s.current_answer with
  | Option.none => false
  | some a => a ≠ ""

/-- Whether the Current Sources section (line 136) is shown. -/
def currentSourcesShown (s : AppState) : Bool :=
  match s.current_sources with
  | Option.none => false
  | some xs => !xs.isEmpty

/-- Whether the Current Generated Queries section (line 139) is shown. -/
def currentQueriesShown (s : AppState) : Bool :=
  match s.current_queries with
  | Option.none => false
  | some xs => !xs.isEmpty

/-- Whether the Current Reflection Notes section (line 142) is shown. -/
def currentReflectionsShown (s : AppState) : Bool :=
  match s.current_reflections with
  | Option.none => false
  | some xs => !xs.isEmpty

/-- Boolean success test for a rendering computation. -/
def renderOk (r : Except PyExc (List String)) : Bool :=
  match r with
  | .ok _ => true
  | .error _ => false

/-- A value `", ".join` accepts: a string or a list of strings. -/
def joinable : PyVal → Bool
  | .str _ => true
  | .list xs => xs.all isStrVal
  | _ => false

/-- A well-shaped reflection note: a dict whose `follow_up_queries` value,
when present and truthy, is a string or a list of strings. -/
def goodNote : PyVal → Bool
  | .dict kvs =>
    match lookupKey kvs "follow_up_queries" with
    | some fq => !pyTruthy fq || joinable fq
    | Option.none => true
  | _ => false

/-- The banner the `except` arms display for an exception `e`. -/
def exceptBanner (e : PyExc) : String :=
  match e with
  | .importError => importErrorBanner
  | e => genericErrorBanner e

/- Concrete data used by the witnesses. -/

/-- A fresh session state with one unrelated key. -/
def demoState : AppState :=
  ⟨[], Option.none, Option.none, Option.none, Option.none,
   [("theme", .str "dark")]⟩

/-- A concrete successful graph result. -/
def demoResult : GraphResult :=
  ⟨some [Msg.human "hi", Msg.ai "the answer"], some [PyVal.str "src"],
   Option.none, Option.none⟩

/-- An external world whose graph always returns `demoResult`. -/
def demoExt : External := ⟨true, fun _ _ => .ok demoResult⟩

/-- An external world whose graph always raises. -/
def failExt : External := ⟨true, fun _ _ => .error (.graphExc "boom")⟩

/-- A concrete configuration. -/
def demoCfg : Config := ⟨3, 2⟩

/- Helper lemmas about the handler. -/

/-- On a successful run of the body, the whole `BodyResult` is determined:
env set to the key, one invoke call, the entry appended, `current_*`
cleared. -/
theorem submissionBody_success_eq (ext : External) (k q : String)
    (cfg : Config) (env : Option String) (s : AppState) (r : GraphResult)
    (ms : List Msg) (m : Msg) (himp : ext.importOk = true)
    (hinv : ext.invoke ⟨[Msg.human q]⟩ cfg = Except.ok r)
    (hmsgs : r.messages = some ms) (hlast : ms.getLast? = some m) :
    submissionBody ext k q cfg env s =
      ⟨{ history := s.history ++ [⟨q, m.content, r.sources_gathered.getD [],
            r.generated_queries.getD [], r.reflection_notes.getD []⟩],
         current_answer := Option.none, current_sources := Option.none,
         current_queries := Option.none, current_reflections := Option.none,
         otherKeys := s.otherKeys },
       some k, [⟨⟨[Msg.human q]⟩, cfg, some k⟩], Option.none⟩ := by
  simp [submissionBody, himp, hinv, hmsgs, hlast]

/-- When the graph invocation raises, the body keeps the session untouched,
records the call, and surfaces the exception. -/
theorem submissionBody_error_eq (ext : External) (k q : String)
    (cfg : Config) (env : Option String) (s : AppState) (e : PyExc)
    (himp : ext.importOk = true)
    (hinv : ext.invoke ⟨[Msg.human q]⟩ cfg = Except.error e) :
    submissionBody ext k q cfg env s =
      ⟨s, some k, [⟨⟨[Msg.human q]⟩, cfg, some k⟩], some e⟩ := by
  simp [submissionBody, himp, hinv]

/-- Any aborted body leaves the session state exactly as it was. -/
theorem submissionBody_session_of_exc (ext : External) (k q : String)
    (cfg : Config) (env : Option String) (s : AppState) (e : PyExc)
    (h : (submissionBody ext k q cfg env s).exc = some e) :
    (submissionBody ext k q cfg env s).session = s := by
  unfold submissionBody at *
  cases himp : ext.importOk with
  | false => simp [himp]
  | true =>
    simp [himp] at h ⊢
    cases hinv : ext.invoke ⟨[Msg.human q]⟩ cfg with
    | error e₀ => simp [hinv]
    | ok r =>
      simp [hinv] at h ⊢
      cases hmsgs : r.messages with
      | none => simp [hmsgs]
      | some ms =>
        simp [hmsgs] at h ⊢
        cases hlast : ms.getLast? with
        | none => simp [hlast]
        | some m => simp [hlast] at h

/-- The calls the body records: exactly the one invoke call (with env set
to the key) when the import succeeds, none otherwise. -/
theorem submissionBody_calls_eq (ext : External) (k q : String)
    (cfg : Config) (env : Option String) (s : AppState) :
    (submissionBody ext k q cfg env s).calls =
      if ext.importOk = true then [⟨⟨[Msg.human q]⟩, cfg, some k⟩]
      else [] := by
  unfold submissionBody
  cases himp : ext.importOk with
  | false => simp
  | true =>
    simp
    cases hinv : ext.invoke ⟨[Msg.human q]⟩ cfg with
    | error e => simp
    | ok r =>
      cases hmsgs : r.messages with
      | none => simp [hmsgs]
      | some ms =>
        cases hlast : ms.getLast? with
        | none => simp [hmsgs, hlast]
        | some m => simp [hmsgs, hlast]

/-- With the form submitted and both fields non-empty, the handler is the
dispatch on the body's exception. -/
theorem processSubmission_valid_eq (k q : String) (cfg : Config)
    (ext : External) (env : Option String) (s : AppState)
    (hk : k ≠ "") (hq : q ≠ "") :
    processSubmission true k q cfg ext env s =
      (match (submissionBody ext k q cfg env s).exc with
       | Option.none =>
         ⟨(submissionBody ext k q cfg env s).session,
          (submissionBody ext k q cfg env s).env_gemini_api_key, [],
          (submissionBody ext k q cfg env s).calls, true⟩
       | some e =>
         ⟨(submissionBody ext k q cfg env s).session,
          (submissionBody ext k q cfg env s).env_gemini_api_key,
          [exceptBanner e], (submissionBody ext k q cfg env s).calls,
          false⟩) := by
  simp only [processSubmission, Bool.not_true, Bool.false_eq_true,
    if_false, if_neg hk, if_neg hq]
  cases h : (submissionBody ext k q cfg env s).exc with
  | none => rfl
  | some e => cases e <;> rfl

/-- Claim C1: for every form submission with a non-empty API key and a
non-empty question (and an importable backend), the handler performs one
graph invocation whose input is exactly one `HumanMessage` holding the
question, with the `GEMINI_API_KEY` environment variable already set to the
entered key at the moment of the call. -/
theorem C1_env_and_input_forwarded (k q : String) (cfg : Config)
    (ext : External) (env : Option String) (s : AppState)
    (hk : k ≠ "") (hq : q ≠ "") (himp : ext.importOk = true) :
    (processSubmission true k q cfg ext env s).calls =
      [⟨⟨[Msg.human q]⟩, cfg, some k⟩] := by
  rw [processSubmission_valid_eq k q cfg ext env s hk hq]
  have hc := submissionBody_calls_eq ext k q cfg env s
  rw [himp] at hc
  simp at hc
  cases h : (submissionBody ext k q cfg env s).exc <;> simpa using hc

/-- Witness for C1 at concrete inputs. -/
theorem C1_env_and_input_forwarded_witness :
    (processSubmission true "key" "hi" demoCfg demoExt Option.none
        demoState).calls =
      [⟨⟨[Msg.human "hi"]⟩, demoCfg, some "key"⟩] :=
  C1_env_and_input_forwarded "key" "hi" demoCfg demoExt Option.none demoState
    (by decide) (by decide) rfl

/-- Claim C2: on a successful submission the appended history entry holds
exactly the agent outputs: the content of the last element of
`result["messages"]`, and the `sources_gathered`, `generated_queries` and
`reflection_notes` lists with `[]` as default when absent. -/
theorem C2_history_entry_fields (k q : String) (cfg : Config)
    (ext : External) (env : Option String) (s : AppState) (r : GraphResult)
    (ms : List Msg) (m : Msg) (hk : k ≠ "") (hq : q ≠ "")
    (himp : ext.importOk = true)
    (hinv : ext.invoke ⟨[Msg.human q]⟩ cfg = Except.ok r)
    (hmsgs : r.messages = some ms) (hlast : ms.getLast? = some m) :
    (processSubmission true k q cfg ext env s).session.history =
      s.history ++ [⟨q, m.content, r.sources_gathered.getD [],
        r.generated_queries.getD [], r.reflection_notes.getD []⟩] := by
  rw [processSubmission_valid_eq k q cfg ext env s hk hq,
      submissionBody_success_eq ext k q cfg env s r ms m himp hinv hmsgs
        hlast]

/-- Witness for C2 at concrete inputs. -/
theorem C2_history_entry_fields_witness :
    (processSubmission true "key" "hi" demoCfg demoExt Option.none
        demoState).session.history =
      [⟨"hi", "the answer", [PyVal.str "src"], [], []⟩] :=
  C2_history_entry_fields "key" "hi" demoCfg demoExt Option.none demoState
    demoResult [Msg.human "hi", Msg.ai "the answer"] (Msg.ai "the answer")
    (by decide) (by decide) rfl rfl rfl rfl

/-- Claim C3: the number of `graph.invoke` calls per run of the handler is
exactly one for a submission with both fields non-empty (and an importable
backend) and zero in every other case — empty field, no submission, or
failed import. -/
theorem C3_invoke_count (submit : Bool) (k q : String) (cfg : Config)
    (ext : External) (env : Option String) (s : AppState) :
    (processSubmission submit k q cfg ext env s).calls.length =
      if submit = true ∧ k ≠ "" ∧ q ≠ "" ∧ ext.importOk = true then 1
      else 0 := by
  cases submit with
  | false => simp [processSubmission]
  | true =>
    by_cases hk : k = ""
    · simp [processSubmission, hk]
    · by_cases hq : q = ""
      · simp [processSubmission, hk, hq]
      · rw [processSubmission_valid_eq k q cfg ext env s hk hq]
        have hc := submissionBody_calls_eq ext k q cfg env s
        by_cases himp : ext.importOk = true
        · rw [himp] at hc
          simp at hc
          cases h : (submissionBody ext k q cfg env s).exc <;>
            simp [hc, hk, hq, himp]
        · have h0 : ext.importOk = false := by
            cases hb : ext.importOk
            · rfl
            · exact absurd hb himp
          rw [h0] at hc
          simp at hc
          cases h : (submissionBody ext k q cfg env s).exc <;>
            simp [hc, hk, hq, h0]

/-- Claim C4: submitting with an empty API key shows exactly the key
banner, and with a key but an empty question exactly the question banner;
in both cases the session, the environment and the call trace are
untouched and no rerun happens. -/
theorem C4_validation_banners (k q : String) (cfg : Config)
    (ext : External) (env : Option String) (s : AppState) :
    (k = "" → processSubmission true k q cfg ext env s =
      ⟨s, env, ["Please enter your Gemini API Key."], [], false⟩) ∧
    (k ≠ "" → q = "" → processSubmission true k q cfg ext env s =
      ⟨s, env, ["Please enter your question."], [], false⟩) := by
  constructor
  · intro hk
    simp [processSubmission, hk]
  · intro hk hq
    simp [processSubmission, hk, hq]

/-- Witness for C4 at concrete inputs: both validation branches. -/
theorem C4_validation_banners_witness :
    processSubmission true "" "hi" demoCfg demoExt Option.none demoState =
      ⟨demoState, Option.none, ["Please enter your Gemini API Key."], [],
        false⟩ ∧
    processSubmission true "key" "" demoCfg demoExt Option.none demoState =
      ⟨demoState, Option.none, ["Please enter your question."], [],
        false⟩ :=
  ⟨(C4_validation_banners "" "hi" demoCfg demoExt Option.none demoState).1
      rfl,
   (C4_validation_banners "key" "" demoCfg demoExt Option.none
      demoState).2 (by decide) rfl⟩

/-- Claim C5: a successful submission appends exactly one entry at the end
of the history, leaves every previously stored entry unchanged in content
and position, and the display renders the new history as the old rendering
followed by the new entry's rendering. -/
theorem C5_history_accumulates_in_order (k q : String) (cfg : Config)
    (ext : External) (env : Option String) (s : AppState) (r : GraphResult)
    (ms : List Msg) (m : Msg) (hk : k ≠ "") (hq : q ≠ "")
    (himp : ext.importOk = true)
    (hinv : ext.invoke ⟨[Msg.human q]⟩ cfg = Except.ok r)
    (hmsgs : r.messages = some ms) (hlast : ms.getLast? = some m) :
    (processSubmission true k q cfg ext env s).session.history =
      s.history ++ [⟨q, m.content, r.sources_gathered.getD [],
        r.generated_queries.getD [], r.reflection_notes.getD []⟩] ∧
    (processSubmission true k q cfg ext env s).session.history.take
        s.history.length = s.history ∧
    renderHistory
        (processSubmission true k q cfg ext env s).session.history =
      renderHistory s.history ++
        [renderEntry ⟨q, m.content, r.sources_gathered.getD [],
          r.generated_queries.getD [], r.reflection_notes.getD []⟩] := by
  rw [processSubmission_valid_eq k q cfg ext env s hk hq,
      submissionBody_success_eq ext k q cfg env s r ms m himp hinv hmsgs
        hlast]
  refine ⟨rfl, ?_, ?_⟩
  · exact List.take_left s.history _
  · simp [renderHistory]

/-- Witness for C5 at concrete inputs. -/
theorem C5_history_accumulates_in_order_witness :
    (processSubmission true "key" "hi" demoCfg demoExt Option.none
        demoState).session.history =
      [⟨"hi", "the answer", [PyVal.str "src"], [], []⟩] ∧
    (processSubmission true "key" "hi" demoCfg demoExt Option.none
        demoState).session.history.take demoState.history.length =
      demoState.history ∧
    renderHistory (processSubmission true "key" "hi" demoCfg demoExt
        Option.none demoState).session.history =
      renderHistory demoState.history ++
        [renderEntry ⟨"hi", "the answer", [PyVal.str "src"], [], []⟩] :=
  C5_history_accumulates_in_order "key" "hi" demoCfg demoExt Option.none
    demoState demoResult [Msg.human "hi", Msg.ai "the answer"]
    (Msg.ai "the answer") (by decide) (by decide) rfl rfl rfl rfl

/-- Claim C7: when the graph invocation raises, the handler returns
normally with exactly the corresponding error banner displayed and no
rerun — the exception is caught, not propagated. -/
theorem C7_invoke_exception_displayed (k q : String) (cfg : Config)
    (ext : External) (env : Option String) (s : AppState) (e : PyExc)
    (hk : k ≠ "") (hq : q ≠ "") (himp : ext.importOk = true)
    (hinv : ext.invoke ⟨[Msg.human q]⟩ cfg = Except.error e) :
    (processSubmission true k q cfg ext env s).errors = [exceptBanner e] ∧
    (processSubmission true k q cfg ext env s).rerun = false := by
  rw [processSubmission_valid_eq k q cfg ext env s hk hq,
      submissionBody_error_eq ext k q cfg env s e himp hinv]
  exact ⟨rfl, rfl⟩

/-- Witness for C7 at concrete inputs. -/
theorem C7_invoke_exception_displayed_witness :
    (processSubmission true "key" "hi" demoCfg failExt Option.none
        demoState).errors =
      ["An error occurred while processing your request: boom"] ∧
    (processSubmission true "key" "hi" demoCfg failExt Option.none
        demoState).rerun = false :=
  C7_invoke_exception_displayed "key" "hi" demoCfg failExt Option.none
    demoState (.graphExc "boom") (by decide) (by decide) rfl rfl

/-- Claim C8: whenever the try body aborts with an exception — failed
import, failed invocation, or failed result extraction — the handler
leaves `st.session_state.history` exactly as it was. -/
theorem C8_history_unchanged_on_failure (k q : String) (cfg : Config)
    (ext : External) (env : Option String) (s : AppState) (e : PyExc)
    (hk : k ≠ "") (hq : q ≠ "")
    (h : (submissionBody ext k q cfg env s).exc = some e) :
    (processSubmission true k q cfg ext env s).session.history =
      s.history := by
  rw [processSubmission_valid_eq k q cfg ext env s hk hq]
  cases h2 : (submissionBody ext k q cfg env s).exc with
  | none =>
    rw [h2] at h
    exact Option.noConfusion h
  | some e2 =>
    have hs := submissionBody_session_of_exc ext k q cfg env s e2 h2
    simp [hs]

/-- Witness for C8 at concrete inputs. -/
theorem C8_history_unchanged_on_failure_witness :
    (processSubmission true "key" "hi" demoCfg failExt Option.none
        demoState).session.history = [] :=
  C8_history_unchanged_on_failure "key" "hi" demoCfg failExt Option.none
    demoState (.graphExc "boom") (by decide) (by decide) rfl

/-- Every call the body records carries exactly the configuration built
from the sidebar. -/
theorem submissionBody_calls_config (ext : External) (k q : String)
    (cfg : Config) (env : Option String) (s : AppState) :
    ∀ c ∈ (submissionBody ext k q cfg env s).calls, c.config = cfg := by
  intro c hc
  rw [submissionBody_calls_eq] at hc
  by_cases himp : ext.importOk = true
  · rw [if_pos himp] at hc
    have := List.mem_singleton.mp hc
    rw [this]
  · rw [if_neg himp] at hc
    exact absurd hc (List.not_mem_nil c)

/-- The configuration reaches every recorded call unchanged. -/
theorem processSubmission_calls_config (submit : Bool) (k q : String)
    (cfg : Config) (ext : External) (env : Option String) (s : AppState) :
    ∀ c ∈ (processSubmission submit k q cfg ext env s).calls,
      c.config = cfg := by
  cases submit with
  | false => simp [processSubmission]
  | true =>
    by_cases hk : k = ""
    · simp [processSubmission, hk]
    · by_cases hq : q = ""
      · simp [processSubmission, hk, hq]
      · rw [processSubmission_valid_eq k q cfg ext env s hk hq]
        cases h : (submissionBody ext k q cfg env s).exc with
        | none => exact submissionBody_calls_config ext k q cfg env s
        | some e => exact submissionBody_calls_config ext k q cfg env s

/-- Claim C9: the sidebar number inputs clamp into their ranges, so every
configuration handed to `graph.invoke` satisfies
`1 ≤ number_of_initial_queries ≤ 10` and `1 ≤ max_research_loops ≤ 5`, and
the untouched widgets yield the defaults 3 and 2. -/
theorem C9_config_within_bounds (q_in l_in : Option Int) (submit : Bool)
    (k q : String) (ext : External) (env : Option String) (s : AppState) :
    (∀ c ∈ (processSubmission submit k q (sidebarConfig q_in l_in) ext env
        s).calls,
      1 ≤ c.config.number_of_initial_queries ∧
      c.config.number_of_initial_queries ≤ 10 ∧
      1 ≤ c.config.max_research_loops ∧
      c.config.max_research_loops ≤ 5) ∧
    sidebarConfig Option.none Option.none = ⟨3, 2⟩ := by
  constructor
  · intro c hc
    rw [processSubmission_calls_config submit k q (sidebarConfig q_in l_in)
      ext env s c hc]
    cases q_in <;> cases l_in <;>
      simp [sidebarConfig, numberInput]
  · rfl

/-- Witness for C9 at concrete inputs. -/
theorem C9_config_within_bounds_witness :
    1 ≤ (InvokeCall.mk ⟨[Msg.human "hi"]⟩
        (sidebarConfig Option.none Option.none)
        (some "key")).config.number_of_initial_queries ∧
    (InvokeCall.mk ⟨[Msg.human "hi"]⟩
        (sidebarConfig Option.none Option.none)
        (some "key")).config.number_of_initial_queries ≤ 10 ∧
    1 ≤ (InvokeCall.mk ⟨[Msg.human "hi"]⟩
        (sidebarConfig Option.none Option.none)
        (some "key")).config.max_research_loops ∧
    (InvokeCall.mk ⟨[Msg.human "hi"]⟩
        (sidebarConfig Option.none Option.none)
        (some "key")).config.max_research_loops ≤ 5 :=
  (C9_config_within_bounds Option.none Option.none true "key" "hi" demoExt
      Option.none demoState).1
    (InvokeCall.mk ⟨[Msg.human "hi"]⟩
      (sidebarConfig Option.none Option.none) (some "key"))
    (by decide)

/-- Claim C10: after a successful submission the four `current_*` session
fields are `None` (so none of the Current sections renders), the handler
reaches the rerun, and no session-state key outside the four `current_*`
fields and `history` is modified. -/
theorem C10_current_state_cleared (k q : String) (cfg : Config)
    (ext : External) (env : Option String) (s : AppState) (r : GraphResult)
    (ms : List Msg) (m : Msg) (hk : k ≠ "") (hq : q ≠ "")
    (himp : ext.importOk = true)
    (hinv : ext.invoke ⟨[Msg.human q]⟩ cfg = Except.ok r)
    (hmsgs : r.messages = some ms) (hlast : ms.getLast? = some m) :
    (processSubmission true k q cfg ext env s).rerun = true ∧
    (processSubmission true k q cfg ext env s).session.current_answer =
      Option.none ∧
    (processSubmission true k q cfg ext env s).session.current_sources =
      Option.none ∧
    (processSubmission true k q cfg ext env s).session.current_queries =
      Option.none ∧
    (processSubmission true k q cfg ext env
        s).session.current_reflections = Option.none ∧
    currentAnswerShown (processSubmission true k q cfg ext env s).session =
      false ∧
    currentSourcesShown
      (processSubmission true k q cfg ext env s).session = false ∧
    currentQueriesShown
      (processSubmission true k q cfg ext env s).session = false ∧
    currentReflectionsShown
      (processSubmission true k q cfg ext env s).session = false ∧
    (processSubmission true k q cfg ext env s).session.otherKeys =
      s.otherKeys := by
  rw [processSubmission_valid_eq k q cfg ext env s hk hq,
      submissionBody_success_eq ext k q cfg env s r ms m himp hinv hmsgs
        hlast]
  exact ⟨rfl, rfl, rfl, rfl, rfl, rfl, rfl, rfl, rfl, rfl⟩

/-- Witness for C10 at concrete inputs. -/
theorem C10_current_state_cleared_witness :
    (processSubmission true "key" "hi" demoCfg demoExt Option.none
        demoState).rerun = true ∧
    (processSubmission true "key" "hi" demoCfg demoExt Option.none
        demoState).session.current_answer = Option.none ∧
    (processSubmission true "key" "hi" demoCfg demoExt Option.none
        demoState).session.current_sources = Option.none ∧
    (processSubmission true "key" "hi" demoCfg demoExt Option.none
        demoState).session.current_queries = Option.none ∧
    (processSubmission true "key" "hi" demoCfg demoExt Option.none
        demoState).session.current_reflections = Option.none ∧
    currentAnswerShown (processSubmission true "key" "hi" demoCfg demoExt
        Option.none demoState).session = false ∧
    currentSourcesShown (processSubmission true "key" "hi" demoCfg demoExt
        Option.none demoState).session = false ∧
    currentQueriesShown (processSubmission true "key" "hi" demoCfg demoExt
        Option.none demoState).session = false ∧
    currentReflectionsShown (processSubmission true "key" "hi" demoCfg
        demoExt Option.none demoState).session = false ∧
    (processSubmission true "key" "hi" demoCfg demoExt Option.none
        demoState).session.otherKeys = [("theme", .str "dark")] :=
  C10_current_state_cleared "key" "hi" demoCfg demoExt Option.none
    demoState demoResult [Msg.human "hi", Msg.ai "the answer"]
    (Msg.ai "the answer") (by decide) (by decide) rfl rfl rfl rfl

/- Claim C6: graceful rendering of malformed entries. -/

/-- An entry whose reflections list holds a plain string. -/
def badReflectionEntry : Entry := ⟨"q", "a", [], [], [.str "oops"]⟩

/-- An entry with malformed sources and queries but a well-shaped
reflection note. -/
def goodEntry : Entry :=
  ⟨"q", "a", [.int 3, .dict [("x", .int 1)], .obj []],
   [.obj [("y", .int 2)], .list []],
   [.dict [("is_sufficient", .bool true),
           ("follow_up_queries", .list [.str "a", .str "b"])]]⟩

/-- Counterexample to C6 as stated: rendering the reflections of an entry
whose reflections list holds a plain string raises `AttributeError`
(`note.get` at line 66 presumes a dict), so rendering is not total over
arbitrary element shapes. -/
theorem C6_nondict_reflection_raises :
    renderOk (renderEntry badReflectionEntry) = false := by rfl

/-- `", ".join` succeeds on every joinable value. -/
theorem pyJoin_ok_of_joinable (v : PyVal) (h : joinable v = true) :
    ∃ out, pyJoin ", " v = Except.ok out := by
  cases v with
  | str s => exact ⟨_, rfl⟩
  | list xs =>
    have hall : xs.all isStrVal = true := h
    exact ⟨String.intercalate ", " (xs.map pyStr),
      by simp only [pyJoin, hall, if_true]⟩
  | int n => simp [joinable] at h
  | bool b => simp [joinable] at h
  | pyNone => simp [joinable] at h
  | dict kvs => simp [joinable] at h
  | obj attrs => simp [joinable] at h

/-- A well-shaped reflection note always renders. -/
theorem renderReflectionNote_ok_of_good (idx : Nat) (n : PyVal)
    (h : goodNote n = true) :
    ∃ ls, renderReflectionNote idx n = Except.ok ls := by
  cases n with
  | dict kvs =>
    cases hfq : lookupKey kvs "follow_up_queries" with
    | none =>
      exact ⟨_, by simp only [renderReflectionNote, pyDictGet, hfq]; rfl⟩
    | some fq =>
      have h2 : (!pyTruthy fq || joinable fq) = true := by
        have hg : goodNote (.dict kvs) = true := h
        rw [goodNote, hfq] at hg
        exact hg
      by_cases ht : pyTruthy fq = true
      · have hj : joinable fq = true := by
          rcases Bool.or_eq_true_iff.mp h2 with h3 | h3
          · rw [ht] at h3
            exact absurd h3 (by decide)
          · exact h3
        obtain ⟨out, hout⟩ := pyJoin_ok_of_joinable fq hj
        exact ⟨_, by
          simp only [renderReflectionNote, pyDictGet, hfq, ht, hout,
            if_true]
          rfl⟩
      · exact ⟨_, by
          simp only [renderReflectionNote, pyDictGet, hfq,
            Bool.of_not_eq_true ht, if_false]
          rfl⟩
  | str s => simp [goodNote] at h
  | int n => simp [goodNote] at h
  | bool b => simp [goodNote] at h
  | pyNone => simp [goodNote] at h
  | list xs => simp [goodNote] at h
  | obj attrs => simp [goodNote] at h

/-- A list of well-shaped reflection notes always renders, from any
starting index. -/
theorem renderReflections_ok_of_good (notes : List PyVal)
    (h : ∀ n ∈ notes, goodNote n = true) :
    ∀ idx, ∃ ls, renderReflections idx notes = Except.ok ls := by
  induction notes with
  | nil => exact fun idx => ⟨[], rfl⟩
  | cons n rest ih =>
    intro idx
    obtain ⟨l₁, h₁⟩ :=
      renderReflectionNote_ok_of_good idx n (h n (List.mem_cons_self n rest))
    obtain ⟨l₂, h₂⟩ :=
      ih (fun m hm => h m (List.mem_cons_of_mem n hm)) (idx + 1)
    exact ⟨l₁ ++ l₂, by simp only [renderReflections, h₁, h₂]; rfl⟩

/-- Claim C6, amended: rendering a history entry never raises for sources
and queries elements of any shape (dicts with or without the expected
keys, strings, arbitrary objects — each falls back to a string
representation), and never raises for reflections provided every
reflection note is a dict whose `follow_up_queries` value, when present
and truthy, is a string or a list of strings; a non-dict reflection note
raises `AttributeError` (see the counterexample). -/
theorem C6_render_fallback_amended (e : Entry)
    (h : ∀ n ∈ e.reflections, goodNote n = true) :
    renderOk (renderEntry e) = true := by
  obtain ⟨ls, hls⟩ := renderReflections_ok_of_good e.reflections h 0
  by_cases hr : e.reflections.isEmpty
  · simp only [renderEntry, hr]
    rfl
  · simp only [renderEntry, Bool.of_not_eq_true hr, hls]
    rfl

/-- Witness for the amended C6: malformed sources and queries together
with a well-shaped reflection note render successfully. -/
theorem C6_render_fallback_amended_witness :
    renderOk (renderEntry goodEntry) = true :=
  C6_render_fallback_amended goodEntry (by decide)

end StreamlitApp
